import Mathlib

/-!
# BrickLayers transform engine — shallow embedding

A Lean model of the BrickLayers Klipper module (`src/brick_layers.py`):
the one-pass G-code scanner that builds the sparse transform map
(`_preprocess_gcode_file`), and the runtime G1 interceptor
(`_cmd_G1_wrapper` / `_execute_transformed_move`).

Modelling conventions:
* Python `str` values are embedded as `List Char` (`Str`); the helpers
  below (`pyStrip`, `splitChar`, `pyLower`, …) mirror the Python string
  builtins the module uses, restricted to the ASCII inputs involved.
* Python floats are embedded as exact rationals (`Rat`); the module only
  parses decimal literals and performs `+`, `/ 2.0` and `*`, so the exact
  model is faithful up to floating-point rounding, which we do not model.
  Arithmetic is phrased through the kernel-reducible wrappers `ratAdd`,
  `ratMul`, `ratHalf` (proved equal to `+`, `*`, `· / 2` below) so that
  concrete runs of the model evaluate by `decide`.
* `try/except`-guarded float parsing is embedded as `Option Rat`.
* The `start_layer` configuration value is a natural number (the shipped
  default is `3`).
-/

namespace BrickLayers

/-- Python strings, embedded as lists of characters. -/
abbrev Str := List Char

/-- Characters Python's `str.strip()` removes (ASCII whitespace). -/
def pyIsSpace (c : Char) : Bool :=
  c.toNat = 32 || c.toNat = 9 || c.toNat = 10 || c.toNat = 13 ||
  c.toNat = 11 || c.toNat = 12

/-- Python `str.strip()`: drop whitespace from both ends. -/
def pyStrip (s : Str) : Str :=
  ((s.dropWhile pyIsSpace).reverse.dropWhile pyIsSpace).reverse

/-- Python `c.lower()` for a single character (ASCII case folding). -/
def pyLowerChar (c : Char) : Char :=
  if 65 ≤ c.toNat ∧ c.toNat ≤ 90 then Char.ofNat (c.toNat + 32) else c

/-- Python `str.lower()` (ASCII case folding). -/
def pyLower (s : Str) : Str := s.map pyLowerChar

/-- Python `pat in s`: does `pat` occur as a contiguous substring of `s`? -/
def strContains (pat : Str) : Str → Bool
  | [] => pat.isEmpty
  | c :: cs => pat.isPrefixOf (c :: cs) || strContains pat cs

/-- Python `s.split(sep)` for a single-character separator. -/
def splitChar (sep : Char) : Str → List Str
  | [] => [[]]
  | c :: cs =>
    if c = sep then [] :: splitChar sep cs
    else
      match splitChar sep cs with
      | [] => [[c]]
      | p :: ps => (c :: p) :: ps

/-- Python `s.split(':', 1)[1]`: the text after the first colon,
`none` when no colon occurs (the `IndexError` path). -/
def afterFirstColon : Str → Option Str
  | [] => none
  | c :: cs => if c = ':' then some cs else afterFirstColon cs

/-- Python `s.split()` (no argument): whitespace tokens, empties dropped. -/
def wsTokens (s : Str) : List Str :=
  (splitChar ' ' (s.map (fun c => if pyIsSpace c then ' ' else c))).filter
    (fun t => ¬ t.isEmpty)

/-! ## Kernel-reducible rational arithmetic

`Rat.add`, `Rat.mul` and `Rat.inv` are `@[irreducible]`, so a model built
directly on them could not be evaluated by `decide`. The wrappers below
build the same values through `mkRat` and are proved equal to the
standard field operations. -/

/-- `a + b` on `Rat`, phrased so the kernel can evaluate it. -/
def ratAdd (a b : Rat) : Rat := mkRat (a.num * b.den + b.num * a.den) (a.den * b.den)

/-- `a * b` on `Rat`, phrased so the kernel can evaluate it. -/
def ratMul (a b : Rat) : Rat := mkRat (a.num * b.num) (a.den * b.den)

/-- `a / 2` on `Rat`, phrased so the kernel can evaluate it. -/
def ratHalf (a : Rat) : Rat := mkRat a.num (a.den * 2)

/-! ## Decimal parsing -/

/-- Digits of a decimal numeral as a natural number. -/
def digitsToNat (ds : Str) : Nat :=
  ds.foldl (fun acc c => 10 * acc + (c.toNat - 48)) 0

/-- Value of the decimal numeral `intPart.fracPart`. -/
def decValue (intPart fracPart : Str) : Rat :=
  mkRat (digitsToNat (intPart ++ fracPart)) (10 ^ fracPart.length)

/-- Negate when the parsed sign was `-`. -/
def applySign (neg : Bool) (q : Rat) : Rat := if neg then -q else q

/-- Parse an optional `+`/`-` sign; returns `true` for `-` and the rest. -/
def parseSign : Str → Bool × Str
  | '+' :: cs => (false, cs)
  | '-' :: cs => (true, cs)
  | cs => (false, cs)

/-- `q * 10 ^ e` for a signed exponent given as sign plus magnitude. -/
def applyExp (q : Rat) (eneg : Bool) (e : Nat) : Rat :=
  if eneg then mkRat q.num (q.den * 10 ^ e) else mkRat (q.num * 10 ^ e) q.den

/-- Exponent suffix of a Python float literal: optional sign, at least one
digit, end of string. -/
def pyFloatExp? (mantissa : Rat) (rest : Str) : Option Rat :=
  let (eneg, rest) := parseSign rest
  let eDigits := rest.takeWhile Char.isDigit
  let rest := rest.dropWhile Char.isDigit
  if eDigits.isEmpty ∨ ¬ rest.isEmpty then none
  else some (applyExp mantissa eneg (digitsToNat eDigits))

/-- Model of Python's `float(s)` on decimal literals:
optional surrounding whitespace, optional sign, digits with an optional
fractional part (at least one digit overall), optional `e`/`E` exponent.
`inf`/`nan` and digit underscores are not modelled (never exercised). -/
def pyFloat? (s : Str) : Option Rat :=
  let t := pyStrip s
  let (neg, t) := parseSign t
  let intPart := t.takeWhile Char.isDigit
  let t := t.dropWhile Char.isDigit
  let (fracPart, t) :=
    match t with
    | '.' :: rest => (rest.takeWhile Char.isDigit, rest.dropWhile Char.isDigit)
    | _ => (([] : Str), t)
  if intPart.isEmpty ∧ fracPart.isEmpty then none
  else
    let mantissa := applySign neg (decValue intPart fracPart)
    match t with
    | [] => some mantissa
    | 'e' :: rest => pyFloatExp? mantissa rest
    | 'E' :: rest => pyFloatExp? mantissa rest
    | _ => none

/-- The numeral group of the regex `Z([-+]?[0-9]*\.?[0-9]+)` matched
greedily at one position (just after a `Z`): optional sign, then either
`digits[.digits]` or `.digits`; a trailing bare dot is not consumed. -/
def matchNumAfterZ (cs : Str) : Option Rat :=
  let (neg, cs1) := parseSign cs
  let d1 := cs1.takeWhile Char.isDigit
  let rest := cs1.dropWhile Char.isDigit
  match rest with
  | '.' :: rest2 =>
    let d2 := rest2.takeWhile Char.isDigit
    if ¬ d2.isEmpty then some (applySign neg (decValue d1 d2))
    else if ¬ d1.isEmpty then some (applySign neg (decValue d1 [])) else none
  | _ => if ¬ d1.isEmpty then some (applySign neg (decValue d1 [])) else none

/-- Model of `re.search(r"Z([-+]?[0-9]*\.?[0-9]+)", s)`: the value of the
leftmost `Z`-prefixed numeral, if any. -/
def extractZ? : Str → Option Rat
  | [] => none
  | c :: cs =>
    if c = 'Z' then
      match matchNumAfterZ cs with
      | some v => some v
      | none => extractZ? cs
    else extractZ? cs

/-! ## Line classification

`_preprocess_gcode_file` classifies each (stripped) line by an if-chain;
the predicates below name its branch conditions in order. -/

/-- Layer-boundary test: `';LAYER_CHANGE' in line or line.startswith(';LAYER:')`. -/
def isLayerLine (ls : Str) : Bool :=
  strContains ";LAYER_CHANGE".data ls || ";LAYER:".data.isPrefixOf ls

/-- Z-annotation test: `line.startswith(';Z:')`. -/
def isZLine (ls : Str) : Bool := ";Z:".data.isPrefixOf ls

/-- Layer-height annotation test:
`line.startswith(';HEIGHT:') or line.startswith(';layer_height')`. -/
def isHeightLine (ls : Str) : Bool :=
  ";HEIGHT:".data.isPrefixOf ls || ";layer_height".data.isPrefixOf ls

/-- Feature-type annotation test: `';TYPE:' in line`. -/
def isTypeLine (ls : Str) : Bool := strContains ";TYPE:".data ls

/-- Move-command test: `line.startswith('G1')`. -/
def isG1Line (ls : Str) : Bool := "G1".data.isPrefixOf ls

/-- A raw input line that the scanner's if-chain classifies as a move:
it reaches the final `startswith('G1')` test without hitting an earlier
branch. -/
def isMoveLine (line : String) : Bool :=
  let ls := pyStrip line.data
  !isLayerLine ls && !isZLine ls && !isHeightLine ls && !isTypeLine ls && isG1Line ls

/-- Payload of a `;Z:` line: `float(line.split(':')[1])`, `none` on
`ValueError`/`IndexError`. -/
def zPayload? (ls : Str) : Option Rat :=
  match (splitChar ':' ls).get? 1 with
  | some p => pyFloat? p
  | none => none

/-- Payload of a height line: `float(line.split(':')[1].split()[0])`,
`none` on `ValueError`/`IndexError`. -/
def heightPayload? (ls : Str) : Option Rat :=
  match (splitChar ':' ls).get? 1 with
  | some p =>
    match (wsTokens p).head? with
    | some tok => pyFloat? tok
    | none => none
  | none => none

/-- Payload of a `;TYPE:` line: `line.split(':', 1)[1].strip()`, `none` on
`IndexError`. -/
def typePayload? (ls : Str) : Option Str :=
  match afterFirstColon ls with
  | some rest => some (pyStrip rest)
  | none => none

/-- `is_inner = current_type and 'inner' in current_type.lower()`
(`current_type` is `None` before any `;TYPE:` line; Python truthiness
makes `None` and `""` both classify as not-inner). -/
def isInner (currentType : Option Str) : Bool :=
  match currentType with
  | none => false
  | some t => !t.isEmpty && strContains "inner".data (pyLower t)

/-! ## The transform-map builder (`_preprocess_gcode_file`) -/

/-- One entry of `transform_map` (the dict stored at a G1 ordinal). -/
structure TransformInfo where
  layer : Nat
  type : Str
  offset_state : Bool
  current_z : Rat
  layer_height : Rat
  brick_z : Rat
  file_line : Nat
deriving Repr, DecidableEq

/-- The scanner's state: the local preprocessing variables of
`_preprocess_gcode_file` plus the `self.transform_map` it populates.
The map is an association list in insertion order; keys are the strictly
increasing G1 ordinals, so `List.lookup` agrees with Python dict lookup. -/
structure ScanState where
  layer : Nat
  current_type : Option Str
  brick_offset_state : Bool
  current_z : Rat
  layer_height : Rat
  g1_count : Nat
  line_count : Nat
  transform_map : List (Nat × TransformInfo)
deriving Repr, DecidableEq

/-- The scanner state at the top of `_preprocess_gcode_file`
(`layer_height` defaults to `0.2`). -/
def initScan : ScanState :=
  { layer := 0, current_type := none, brick_offset_state := false,
    current_z := 0, layer_height := mkRat 1 5, g1_count := 0,
    line_count := 0, transform_map := [] }

/-- The body of the scanner's `for line in f` loop: classify one line and
update the state. `start_layer` is the configured threshold. -/
def processLine (start_layer : Nat) (st : ScanState) (line : String) : ScanState :=
  let st := { st with line_count := st.line_count + 1 }
  let ls := pyStrip line.data
  if isLayerLine ls then
    let layer := st.layer + 1
    { st with
      layer,
      brick_offset_state :=
        if start_layer ≤ layer then !st.brick_offset_state else st.brick_offset_state }
  else if isZLine ls then
    { st with current_z := (zPayload? ls).getD st.current_z }
  else if isHeightLine ls then
    { st with layer_height := (heightPayload? ls).getD st.layer_height }
  else if isTypeLine ls then
    match typePayload? ls with
    | some t => { st with current_type := some t }
    | none => st
  else if isG1Line ls then
    let g1 := st.g1_count + 1
    let cz := (extractZ? ls).getD st.current_z
    let st := { st with g1_count := g1, current_z := cz }
    if isInner st.current_type && start_layer ≤ st.layer then
      let brick_z := ratAdd cz (ratHalf st.layer_height)
      { st with
        transform_map := st.transform_map ++
          [(g1, { layer := st.layer, type := st.current_type.getD [],
                  offset_state := st.brick_offset_state, current_z := cz,
                  layer_height := st.layer_height, brick_z := brick_z,
                  file_line := st.line_count })] }
    else st
  else st

/-- The whole scan of `_preprocess_gcode_file` over the file's lines. -/
def preprocess (start_layer : Nat) (lines : List String) : ScanState :=
  lines.foldl (processLine start_layer) initScan

/-! ## The move interceptor (`_cmd_G1_wrapper`) -/

/-- A live G1 command as the interceptor sees it: `gcmd.get_float(F)`
either yields a float or raises, so each field is optional. -/
structure GCmd where
  x : Option Rat
  y : Option Rat
  z : Option Rat
  e : Option Rat
  f : Option Rat
deriving Repr, DecidableEq

/-- One field of the rewritten command string built by
`_execute_transformed_move` (`f"X{x:.6f}"` etc.; we keep the exact value
rather than its 6-decimal rendering). -/
inductive GPart where
  | X (v : Rat)
  | Y (v : Rat)
  | Z (v : Rat)
  | E (v : Rat)
  | F (v : Rat)
deriving Repr, DecidableEq

/-- What the interceptor hands to the host for one command: the original
command passed through unchanged, or the rewritten command's fields. -/
inductive Emit where
  | original (g : GCmd)
  | rewritten (parts : List GPart)
deriving Repr, DecidableEq

/-- Engine state owned by the module instance: the `self` fields that the
interceptor and preprocessor read or write. -/
structure Engine where
  enabled : Bool
  current_layer : Nat
  g1_command_count : Nat
  stats_moves_transformed : Nat
  stats_moves_total : Nat
  transform_map : List (Nat × TransformInfo)
deriving Repr, DecidableEq

/-- `_execute_transformed_move`: build the replacement command. `cmd_parts`
takes X and Y if present, always the instruction's `brick_z` as Z, E scaled
by the extrusion multiplier if present, F if present — in that order. -/
def executeTransformedMove (mult : Rat) (ti : TransformInfo) (g : GCmd) : List GPart :=
  (match g.x with | some v => [GPart.X v] | none => []) ++
  (match g.y with | some v => [GPart.Y v] | none => []) ++
  [GPart.Z ti.brick_z] ++
  (match g.e with | some v => [GPart.E (ratMul v mult)] | none => []) ++
  (match g.f with | some v => [GPart.F v] | none => [])

/-- `_cmd_G1_wrapper`: count the command, update layer tracking from the
transform map (the stored entries always carry a `layer`, so dict
`.get('layer', 0)` is just the field), then either rewrite (when enabled
and the ordinal is mapped) or pass through. -/
def cmdG1Wrapper (mult : Rat) (eng : Engine) (g : GCmd) : Engine × Emit :=
  let cnt := eng.g1_command_count + 1
  let eng1 := { eng with
    g1_command_count := cnt,
    stats_moves_total := eng.stats_moves_total + 1 }
  match eng1.transform_map.lookup cnt with
  | some ti =>
    let eng2 :=
      if eng1.current_layer < ti.layer then { eng1 with current_layer := ti.layer } else eng1
    if eng2.enabled then
      ({ eng2 with stats_moves_transformed := eng2.stats_moves_transformed + 1 },
       Emit.rewritten (executeTransformedMove mult ti g))
    else (eng2, Emit.original g)
  | none => (eng1, Emit.original g)

/-- Run the interceptor over a whole stream of live commands. -/
def runStream (mult : Rat) (eng : Engine) (gs : List GCmd) : Engine :=
  gs.foldl (fun e g => (cmdG1Wrapper mult e g).1) eng

/-- `_preprocess_gcode_file` seen at the engine level: reset the map and
runtime counters, then scan. `delivered` is what reading the file yields
before a failure; `failed` is true when opening or reading raises (the
`except` arm resets `transform_map` to empty). `enabled` is never
touched. -/
def preprocessFile (start_layer : Nat) (eng : Engine) (delivered : List String)
    (failed : Bool) : Engine :=
  let eng1 := { eng with
    transform_map := [], g1_command_count := 0, current_layer := 0,
    stats_moves_transformed := 0, stats_moves_total := 0 }
  if failed then { eng1 with transform_map := [] }
  else { eng1 with transform_map := (preprocess start_layer delivered).transform_map }

/-! ## Derived definitions used by the invariants -/

/-- The entry inserted for a mapped move, as a function of the state at
the move and the extracted fallback Z. -/
def moveInfo (st : ScanState) (cz : Rat) : TransformInfo :=
  { layer := st.layer, type := st.current_type.getD [],
    offset_state := st.brick_offset_state, current_z := cz,
    layer_height := st.layer_height,
    brick_z := ratAdd cz (ratHalf st.layer_height),
    file_line := st.line_count + 1 }

/-- Keys of the transform map built so far lie in `[1, g1_count]`. -/
def mapKeysBounded (st : ScanState) : Prop :=
  ∀ p ∈ st.transform_map, 1 ≤ p.1 ∧ p.1 ≤ st.g1_count

/-- Every entry the scanner inserts records a layer at or above the
configured start layer. -/
def mapLayersAtLeast (T : Nat) (st : ScanState) : Prop :=
  ∀ p ∈ st.transform_map, T ≤ p.2.layer

/-- Closed form for the offset flag as a function of the layer index:
false below the threshold, then alternating starting `true` at layer `T`. -/
def offsetOfLayer (T L : Nat) : Bool :=
  if L < T then false else decide ((L - T) % 2 = 0)

/-! ## Observation functions for the ordinal-agreement claim -/

/-- `[a+1, a+2, …, a+n]`. -/
def ordList (a : Nat) : Nat → List Nat
  | 0 => []
  | n + 1 => (a + 1) :: ordList (a + 1) n

/-- Number of lines the scanner classifies as moves. -/
def countMoves (lines : List String) : Nat := lines.countP (fun l => isMoveLine l)

/-- The `g1_count` ordinal the scanner assigns to each move line, in file
order, starting from state `st`. -/
def scanAssignedAux (start_layer : Nat) (st : ScanState) : List String → List Nat
  | [] => []
  | l :: ls =>
    let st' := processLine start_layer st l
    if isMoveLine l then st'.g1_count :: scanAssignedAux start_layer st' ls
    else scanAssignedAux start_layer st' ls

/-- The ordinals the Builder assigns over a full scan. -/
def scanAssigned (start_layer : Nat) (lines : List String) : List Nat :=
  scanAssignedAux start_layer initScan lines

/-- The `g1_command_count` ordinal the interceptor assigns to (and looks
up for) each live command, in execution order. -/
def runAssignedAux (mult : Rat) (eng : Engine) : List GCmd → List Nat
  | [] => []
  | g :: gs =>
    (eng.g1_command_count + 1) :: runAssignedAux mult (cmdG1Wrapper mult eng g).1 gs

/-! ## Concrete fixtures used to instantiate the theorems -/

/-- A small toolpath: one external and one inner-wall move on layer 1,
then a layer change and a further move (the feature label persists). -/
def demoToolpath : List String :=
  [";LAYER_CHANGE", ";TYPE:External perimeter", "G1 X1 E1", ";TYPE:Inner wall",
   "G1 X2 E1", ";LAYER_CHANGE", "G1 X3 E1"]

/-- An engine fresh after a reload: counters reset, empty map, enabled. -/
def demoEngine : Engine :=
  { enabled := true, current_layer := 0, g1_command_count := 0,
    stats_moves_transformed := 0, stats_moves_total := 0, transform_map := [] }

/-- The engine after preprocessing `demoToolpath` at threshold 1. -/
def mappedEngine : Engine :=
  { demoEngine with transform_map := (preprocess 1 demoToolpath).transform_map }

/-- Three live commands matching `demoToolpath`'s three move lines. -/
def demoCmds : List GCmd :=
  [{ x := some (mkRat 1 1), y := none, z := none, e := some (mkRat 1 1), f := none },
   { x := some (mkRat 2 1), y := none, z := none, e := some (mkRat 1 1), f := none },
   { x := some (mkRat 3 1), y := none, z := none, e := some (mkRat 1 1), f := none }]

/-- Scan prefix used to exhibit one mapped move. -/
def innerWallBlock : List String := [";LAYER_CHANGE", ";TYPE:Inner wall"]

/-! ## Rational-wrapper correctness -/

theorem ratAdd_eq (a b : Rat) : ratAdd a b = a + b := (Rat.add_def' a b).symm

theorem ratMul_eq (a b : Rat) : ratMul a b = a * b := by
  rw [Rat.mul_def, Rat.normalize_eq_mkRat, ratMul]

theorem ratHalf_eq (a : Rat) : ratHalf a = a / 2 := by
  have h2 : ratMul a (mkRat 1 2) = a * (1 / 2 : Rat) := by
    rw [ratMul_eq]; norm_num [Rat.mkRat_eq_div]
  have : ratHalf a = ratMul a (mkRat 1 2) := by
    simp [ratHalf, ratMul, mkRat, Rat.normalize]
  rw [this, h2, mul_one_div]

/-! ## Branch characterizations of the scanner's if-chain -/

theorem processLine_of_layer (T : Nat) (st : ScanState) (line : String)
    (h : isLayerLine (pyStrip line.data) = true) :
    processLine T st line =
      { st with
        line_count := st.line_count + 1,
        layer := st.layer + 1,
        brick_offset_state :=
          if T ≤ st.layer + 1 then !st.brick_offset_state else st.brick_offset_state } := by
  simp only [processLine, h, if_true]

theorem processLine_of_z (T : Nat) (st : ScanState) (line : String)
    (h1 : isLayerLine (pyStrip line.data) = false)
    (h2 : isZLine (pyStrip line.data) = true) :
    processLine T st line =
      { st with
        line_count := st.line_count + 1,
        current_z := (zPayload? (pyStrip line.data)).getD st.current_z } := by
  simp only [processLine, h1, h2, if_true, Bool.false_eq_true, if_false]

theorem processLine_of_height (T : Nat) (st : ScanState) (line : String)
    (h1 : isLayerLine (pyStrip line.data) = false)
    (h2 : isZLine (pyStrip line.data) = false)
    (h3 : isHeightLine (pyStrip line.data) = true) :
    processLine T st line =
      { st with
        line_count := st.line_count + 1,
        layer_height := (heightPayload? (pyStrip line.data)).getD st.layer_height } := by
  simp only [processLine, h1, h2, h3, if_true, Bool.false_eq_true, if_false]

theorem processLine_of_move (T : Nat) (st : ScanState) (line : String)
    (h : isMoveLine line = true) :
    processLine T st line =
      (let ls := pyStrip line.data
       let cz := (extractZ? ls).getD st.current_z
       let st1 := { st with
         line_count := st.line_count + 1, g1_count := st.g1_count + 1, current_z := cz }
       if isInner st.current_type && T ≤ st.layer then
         { st1 with
           transform_map := st1.transform_map ++
             [(st.g1_count + 1,
               { layer := st.layer, type := st.current_type.getD [],
                 offset_state := st.brick_offset_state, current_z := cz,
                 layer_height := st.layer_height,
                 brick_z := ratAdd cz (ratHalf st.layer_height),
                 file_line := st.line_count + 1 })] }
       else st1) := by
  simp only [isMoveLine, Bool.and_eq_true, Bool.not_eq_true'] at h
  obtain ⟨⟨⟨⟨h1, h2⟩, h3⟩, h4⟩, h5⟩ := h
  simp only [processLine, h1, h2, h3, h4, h5, if_true, Bool.false_eq_true, if_false]

theorem processLine_of_move_mapped (T : Nat) (st : ScanState) (line : String)
    (h : isMoveLine line = true)
    (hcond : (isInner st.current_type && decide (T ≤ st.layer)) = true) :
    processLine T st line =
      { st with
        line_count := st.line_count + 1, g1_count := st.g1_count + 1,
        current_z := (extractZ? (pyStrip line.data)).getD st.current_z,
        transform_map := st.transform_map ++
          [(st.g1_count + 1,
            moveInfo st ((extractZ? (pyStrip line.data)).getD st.current_z))] } := by
  rw [processLine_of_move T st line h]
  simp only [moveInfo, hcond, if_true]

theorem processLine_of_move_unmapped (T : Nat) (st : ScanState) (line : String)
    (h : isMoveLine line = true)
    (hcond : (isInner st.current_type && decide (T ≤ st.layer)) = false) :
    processLine T st line =
      { st with
        line_count := st.line_count + 1, g1_count := st.g1_count + 1,
        current_z := (extractZ? (pyStrip line.data)).getD st.current_z } := by
  rw [processLine_of_move T st line h]
  simp only [hcond, Bool.false_eq_true, if_false]

/-- Lines the if-chain does not classify as moves leave the G1 counter and
the transform map untouched. -/
theorem processLine_of_not_move (T : Nat) (st : ScanState) (line : String)
    (h : isMoveLine line = false) :
    (processLine T st line).g1_count = st.g1_count ∧
    (processLine T st line).transform_map = st.transform_map := by
  simp only [isMoveLine, Bool.and_eq_false_iff, Bool.not_eq_false'] at h
  by_cases h1 : isLayerLine (pyStrip line.data) = true
  · simp [processLine_of_layer T st line h1]
  · rw [Bool.not_eq_true] at h1
    by_cases h2 : isZLine (pyStrip line.data) = true
    · simp [processLine_of_z T st line h1 h2]
    · rw [Bool.not_eq_true] at h2
      by_cases h3 : isHeightLine (pyStrip line.data) = true
      · simp [processLine_of_height T st line h1 h2 h3]
      · rw [Bool.not_eq_true] at h3
        simp only [processLine, h1, h2, h3, Bool.false_eq_true, if_false]
        by_cases h4 : isTypeLine (pyStrip line.data) = true
        · simp only [h4, if_true]
          cases typePayload? (pyStrip line.data) <;> simp
        · rw [Bool.not_eq_true] at h4
          simp only [h4, Bool.false_eq_true, if_false]
          have h5 : isG1Line (pyStrip line.data) = false := by
            rcases h with ((((c | c) | c) | c) | c) <;> simp_all
          simp [h5]

/-- Non-layer lines leave the layer index and the offset flag untouched. -/
theorem processLine_of_not_layer (T : Nat) (st : ScanState) (line : String)
    (h : isLayerLine (pyStrip line.data) = false) :
    (processLine T st line).layer = st.layer ∧
    (processLine T st line).brick_offset_state = st.brick_offset_state := by
  simp only [processLine, h, Bool.false_eq_true, if_false]
  by_cases h2 : isZLine (pyStrip line.data) = true
  · simp [h2]
  · rw [Bool.not_eq_true] at h2
    simp only [h2, Bool.false_eq_true, if_false]
    by_cases h3 : isHeightLine (pyStrip line.data) = true
    · simp [h3]
    · rw [Bool.not_eq_true] at h3
      simp only [h3, Bool.false_eq_true, if_false]
      by_cases h4 : isTypeLine (pyStrip line.data) = true
      · simp only [h4, if_true]
        cases typePayload? (pyStrip line.data) <;> simp
      · rw [Bool.not_eq_true] at h4
        simp only [h4, Bool.false_eq_true, if_false]
        by_cases h5 : isG1Line (pyStrip line.data) = true
        · simp only [h5, if_true]
          split <;> simp
        · rw [Bool.not_eq_true] at h5
          simp [h5]

/-- The scanner's move counter after one line. -/
theorem processLine_g1_count (T : Nat) (st : ScanState) (line : String) :
    (processLine T st line).g1_count =
      if isMoveLine line then st.g1_count + 1 else st.g1_count := by
  by_cases h : isMoveLine line = true
  · rw [processLine_of_move T st line h]
    simp only [h, if_true]
    split <;> rfl
  · rw [Bool.not_eq_true] at h
    simp [h, (processLine_of_not_move T st line h).1]

/-! ## Counter and transform-map invariants of the scan -/

theorem foldl_g1_count (T : Nat) :
    ∀ (ls : List String) (st : ScanState),
      (ls.foldl (processLine T) st).g1_count = st.g1_count + countMoves ls := by
  intro ls
  induction ls with
  | nil => intro st; simp [countMoves]
  | cons l ls ih =>
    intro st
    have hc : countMoves (l :: ls) = (if isMoveLine l then 1 else 0) + countMoves ls := by
      simp [countMoves, List.countP_cons]; split <;> omega
    simp only [List.foldl_cons, ih, processLine_g1_count, hc]
    split <;> omega

theorem preprocess_g1_count (T : Nat) (lines : List String) :
    (preprocess T lines).g1_count = countMoves lines := by
  simp [preprocess, foldl_g1_count, initScan]

theorem processLine_mapKeysBounded (T : Nat) (st : ScanState) (line : String)
    (h : mapKeysBounded st) : mapKeysBounded (processLine T st line) := by
  by_cases hm : isMoveLine line = true
  · by_cases hc : (isInner st.current_type && decide (T ≤ st.layer)) = true
    · rw [processLine_of_move_mapped T st line hm hc]
      intro p hp
      dsimp only at hp ⊢
      simp only [List.mem_append, List.mem_singleton] at hp
      rcases hp with hp | hp
      · have := h p hp; omega
      · subst hp; dsimp only; omega
    · rw [Bool.not_eq_true] at hc
      rw [processLine_of_move_unmapped T st line hm hc]
      intro p hp
      dsimp only at hp ⊢
      have := h p hp
      omega
  · rw [Bool.not_eq_true] at hm
    obtain ⟨hg, hmap⟩ := processLine_of_not_move T st line hm
    intro p hp
    rw [hmap] at hp
    rw [hg]
    exact h p hp

theorem foldl_mapKeysBounded (T : Nat) :
    ∀ (ls : List String) (st : ScanState), mapKeysBounded st →
      mapKeysBounded (ls.foldl (processLine T) st) := by
  intro ls
  induction ls with
  | nil => intro st h; exact h
  | cons l ls ih => intro st h; exact ih _ (processLine_mapKeysBounded T st l h)

theorem initScan_mapKeysBounded : mapKeysBounded initScan := by
  intro p hp; simp [initScan] at hp

theorem preprocess_mapKeysBounded (T : Nat) (lines : List String) :
    mapKeysBounded (preprocess T lines) :=
  foldl_mapKeysBounded T lines initScan initScan_mapKeysBounded

theorem lookup_none_of_gt (m : List (Nat × TransformInfo)) (n k : Nat)
    (hm : ∀ p ∈ m, p.1 ≤ n) (hk : n < k) : m.lookup k = none := by
  rw [List.lookup_eq_none_iff]
  intro p hp
  have := hm p hp
  simp only [bne_iff_ne, ne_eq]
  omega

theorem lookup_single_none (k a : Nat) (b : TransformInfo) (h : ¬ a = k) :
    List.lookup k [(a, b)] = none := by
  rw [List.lookup_eq_none_iff]
  intro p hp
  simp only [List.mem_singleton] at hp
  subst hp
  simp only [bne_iff_ne, ne_eq]
  omega

/-- Scanning further lines never changes the map at an already-assigned
ordinal: later insertions use strictly larger keys. -/
theorem foldl_lookup_stable (T : Nat) :
    ∀ (ls : List String) (st : ScanState) (k : Nat), mapKeysBounded st →
      k ≤ st.g1_count →
      ((ls.foldl (processLine T) st).transform_map.lookup k) =
        st.transform_map.lookup k := by
  intro ls
  induction ls with
  | nil => intro st k _ _; rfl
  | cons l ls ih =>
    intro st k hinv hk
    have hg1 : st.g1_count ≤ (processLine T st l).g1_count := by
      rw [processLine_g1_count]; split <;> omega
    rw [List.foldl_cons,
      ih (processLine T st l) k (processLine_mapKeysBounded T st l hinv) (by omega)]
    by_cases hm : isMoveLine l = true
    · by_cases hc : (isInner st.current_type && decide (T ≤ st.layer)) = true
      · rw [processLine_of_move_mapped T st l hm hc]
        dsimp only
        rw [List.lookup_append, lookup_single_none k (st.g1_count + 1) _ (by omega),
          Option.or_none]
      · rw [Bool.not_eq_true] at hc
        rw [processLine_of_move_unmapped T st l hm hc]
    · rw [Bool.not_eq_true] at hm
      rw [(processLine_of_not_move T st l hm).2]

theorem processLine_mapLayersAtLeast (T : Nat) (st : ScanState) (line : String)
    (h : mapLayersAtLeast T st) : mapLayersAtLeast T (processLine T st line) := by
  by_cases hm : isMoveLine line = true
  · by_cases hc : (isInner st.current_type && decide (T ≤ st.layer)) = true
    · rw [processLine_of_move_mapped T st line hm hc]
      intro p hp
      simp only [List.mem_append, List.mem_singleton] at hp
      rcases hp with hp | hp
      · exact h p hp
      · subst hp
        simp only [Bool.and_eq_true, decide_eq_true_eq] at hc
        exact hc.2
    · rw [Bool.not_eq_true] at hc
      rw [processLine_of_move_unmapped T st line hm hc]
      intro p hp
      exact h p hp
  · rw [Bool.not_eq_true] at hm
    intro p hp
    rw [(processLine_of_not_move T st line hm).2] at hp
    exact h p hp

theorem preprocess_mapLayersAtLeast (T : Nat) (lines : List String) :
    mapLayersAtLeast T (preprocess T lines) := by
  have : ∀ (ls : List String) (st : ScanState), mapLayersAtLeast T st →
      mapLayersAtLeast T (ls.foldl (processLine T) st) := by
    intro ls
    induction ls with
    | nil => intro st h; exact h
    | cons l ls ih => intro st h; exact ih _ (processLine_mapLayersAtLeast T st l h)
  exact this lines initScan (by intro p hp; simp [initScan] at hp)

/-! ## Interceptor step lemmas -/

theorem cmdG1Wrapper_count (mult : Rat) (eng : Engine) (g : GCmd) :
    ((cmdG1Wrapper mult eng g).1).g1_command_count = eng.g1_command_count + 1 := by
  unfold cmdG1Wrapper
  dsimp only
  cases List.lookup (eng.g1_command_count + 1) eng.transform_map with
  | none => rfl
  | some ti => dsimp only; split <;> split <;> rfl

theorem cmdG1Wrapper_current_layer (mult : Rat) (eng : Engine) (g : GCmd) :
    ((cmdG1Wrapper mult eng g).1).current_layer =
      (match eng.transform_map.lookup (eng.g1_command_count + 1) with
       | some ti =>
         if eng.current_layer < ti.layer then ti.layer else eng.current_layer
       | none => eng.current_layer) := by
  unfold cmdG1Wrapper
  dsimp only
  cases List.lookup (eng.g1_command_count + 1) eng.transform_map with
  | none => rfl
  | some ti =>
    dsimp only
    split <;> dsimp only <;> split <;> rfl

theorem cmdG1Wrapper_map (mult : Rat) (eng : Engine) (g : GCmd) :
    ((cmdG1Wrapper mult eng g).1).transform_map = eng.transform_map := by
  unfold cmdG1Wrapper
  dsimp only
  cases List.lookup (eng.g1_command_count + 1) eng.transform_map with
  | none => rfl
  | some ti => dsimp only; split <;> split <;> rfl

theorem cmdG1Wrapper_emit (mult : Rat) (eng : Engine) (g : GCmd) :
    (cmdG1Wrapper mult eng g).2 =
      (match eng.transform_map.lookup (eng.g1_command_count + 1) with
       | some ti =>
         if eng.enabled then Emit.rewritten (executeTransformedMove mult ti g)
         else Emit.original g
       | none => Emit.original g) := by
  unfold cmdG1Wrapper
  dsimp only
  cases List.lookup (eng.g1_command_count + 1) eng.transform_map with
  | none => rfl
  | some ti => dsimp only; split <;> dsimp only <;> split <;> rfl

/-- The layer-tracking and counting fields the interceptor produces depend
only on the layer-tracking and counting fields it reads — not on the
enabled flag or the statistics counters. -/
theorem cmdG1Wrapper_obs (mult : Rat) (g : GCmd) (e e' : Engine)
    (h1 : e.current_layer = e'.current_layer)
    (h2 : e.g1_command_count = e'.g1_command_count)
    (h3 : e.transform_map = e'.transform_map) :
    ((cmdG1Wrapper mult e g).1).current_layer = ((cmdG1Wrapper mult e' g).1).current_layer ∧
    ((cmdG1Wrapper mult e g).1).g1_command_count =
      ((cmdG1Wrapper mult e' g).1).g1_command_count ∧
    ((cmdG1Wrapper mult e g).1).transform_map =
      ((cmdG1Wrapper mult e' g).1).transform_map := by
  refine ⟨?_, ?_, ?_⟩
  · rw [cmdG1Wrapper_current_layer, cmdG1Wrapper_current_layer, h1, h2, h3]
  · rw [cmdG1Wrapper_count, cmdG1Wrapper_count, h2]
  · rw [cmdG1Wrapper_map, cmdG1Wrapper_map, h3]

theorem runStream_obs (mult : Rat) (gs : List GCmd) :
    ∀ (e e' : Engine),
      e.current_layer = e'.current_layer →
      e.g1_command_count = e'.g1_command_count →
      e.transform_map = e'.transform_map →
      (runStream mult e gs).current_layer = (runStream mult e' gs).current_layer ∧
      (runStream mult e gs).g1_command_count = (runStream mult e' gs).g1_command_count := by
  induction gs with
  | nil => intro e e' h1 h2 h3; exact ⟨h1, h2⟩
  | cons g gs ih =>
    intro e e' h1 h2 h3
    obtain ⟨k1, k2, k3⟩ := cmdG1Wrapper_obs mult g e e' h1 h2 h3
    exact ih (cmdG1Wrapper mult e g).1 (cmdG1Wrapper mult e' g).1 k1 k2 k3

theorem cmdG1Wrapper_layer_mono (mult : Rat) (eng : Engine) (g : GCmd) :
    eng.current_layer ≤ ((cmdG1Wrapper mult eng g).1).current_layer := by
  rw [cmdG1Wrapper_current_layer]
  cases eng.transform_map.lookup (eng.g1_command_count + 1) with
  | none => exact Nat.le_refl _
  | some ti => dsimp only; split <;> omega

theorem runStream_layer_mono (mult : Rat) (gs : List GCmd) :
    ∀ eng : Engine, eng.current_layer ≤ (runStream mult eng gs).current_layer := by
  induction gs with
  | nil => intro eng; exact Nat.le_refl _
  | cons g gs ih =>
    intro eng
    exact Nat.le_trans (cmdG1Wrapper_layer_mono mult eng g) (ih (cmdG1Wrapper mult eng g).1)

/-! ## Offset alternation -/

theorem decide_succ_mod_two (x : Nat) :
    decide ((x + 1) % 2 = 0) = !decide (x % 2 = 0) := by
  by_cases h : x % 2 = 0
  · have h1 : (x + 1) % 2 = 1 := by omega
    simp [h, h1]
  · have h1 : (x + 1) % 2 = 0 := by omega
    simp [h, h1]

theorem offsetOfLayer_succ (T L : Nat) :
    offsetOfLayer T (L + 1) =
      if T ≤ L + 1 then !offsetOfLayer T L else offsetOfLayer T L := by
  by_cases h1 : T ≤ L + 1
  · rw [if_pos h1]
    by_cases h2 : T ≤ L
    · have e1 : ¬ L + 1 < T := by omega
      have e2 : ¬ L < T := by omega
      have e3 : L + 1 - T = (L - T) + 1 := by omega
      unfold offsetOfLayer
      rw [if_neg e1, if_neg e2, e3, decide_succ_mod_two]
    · have e1 : ¬ L + 1 < T := by omega
      have e2 : L < T := by omega
      have e3 : L + 1 - T = 0 := by omega
      unfold offsetOfLayer
      rw [if_neg e1, if_pos e2, e3]
      rfl
  · rw [if_neg h1]
    have e1 : L + 1 < T := by omega
    have e2 : L < T := by omega
    unfold offsetOfLayer
    rw [if_pos e1, if_pos e2]

/-- The scan invariant: the offset flag always equals the closed form of
the current layer, provided the threshold is at least 1. -/
theorem foldl_offset (T : Nat) :
    ∀ (ls : List String) (st : ScanState),
      st.brick_offset_state = offsetOfLayer T st.layer →
      (ls.foldl (processLine T) st).brick_offset_state =
        offsetOfLayer T (ls.foldl (processLine T) st).layer := by
  intro ls
  induction ls with
  | nil => intro st h; exact h
  | cons l ls ih =>
    intro st h
    rw [List.foldl_cons]
    apply ih
    by_cases hl : isLayerLine (pyStrip l.data) = true
    · rw [processLine_of_layer T st l hl]
      dsimp only
      rw [h, offsetOfLayer_succ]
    · rw [Bool.not_eq_true] at hl
      obtain ⟨h1, h2⟩ := processLine_of_not_layer T st l hl
      rw [h1, h2, h]

theorem preprocess_offset (T : Nat) (hT : 1 ≤ T) (lines : List String) :
    (preprocess T lines).brick_offset_state =
      offsetOfLayer T (preprocess T lines).layer := by
  apply foldl_offset T
  unfold offsetOfLayer initScan
  dsimp only
  have h0 : 0 < T := hT
  rw [if_pos h0]

/-! ## Ordinal sequences -/

theorem scanAssignedAux_eq (T : Nat) :
    ∀ (ls : List String) (st : ScanState),
      scanAssignedAux T st ls = ordList st.g1_count (countMoves ls) := by
  intro ls
  induction ls with
  | nil => intro st; rfl
  | cons l ls ih =>
    intro st
    by_cases hm : isMoveLine l = true
    · have hcm : countMoves (l :: ls) = countMoves ls + 1 := by
        simp [countMoves, List.countP_cons, hm]
      have hg : (processLine T st l).g1_count = st.g1_count + 1 := by
        rw [processLine_g1_count, if_pos hm]
      rw [hcm]
      show (let st' := processLine T st l
        if isMoveLine l then st'.g1_count :: scanAssignedAux T st' ls
        else scanAssignedAux T st' ls) = _
      rw [if_pos hm, ih, hg]
      rfl
    · rw [Bool.not_eq_true] at hm
      have hcm : countMoves (l :: ls) = countMoves ls := by
        simp [countMoves, List.countP_cons, hm]
      have hg : (processLine T st l).g1_count = st.g1_count := by
        rw [processLine_g1_count, hm]
        rfl
      rw [hcm]
      show (let st' := processLine T st l
        if isMoveLine l then st'.g1_count :: scanAssignedAux T st' ls
        else scanAssignedAux T st' ls) = _
      rw [hm]
      simp only [Bool.false_eq_true, if_false, ih, hg]

theorem runAssignedAux_eq (mult : Rat) :
    ∀ (gs : List GCmd) (eng : Engine),
      runAssignedAux mult eng gs = ordList eng.g1_command_count gs.length := by
  intro gs
  induction gs with
  | nil => intro eng; rfl
  | cons g gs ih =>
    intro eng
    show (eng.g1_command_count + 1) :: runAssignedAux mult (cmdG1Wrapper mult eng g).1 gs = _
    rw [ih, cmdG1Wrapper_count]
    rfl

theorem lookup_mem :
    ∀ {l : List (Nat × TransformInfo)} {k : Nat} {b : TransformInfo},
      l.lookup k = some b → (k, b) ∈ l := by
  intro l
  induction l with
  | nil => intro k b h; simp [List.lookup] at h
  | cons p l ih =>
    intro k b h
    obtain ⟨a, c⟩ := p
    rw [List.lookup_cons] at h
    by_cases e : (k == a) = true
    · rw [e] at h
      simp only [cond_true, Option.some.injEq] at h
      have ha : k = a := by simpa using e
      subst ha
      subst h
      exact List.mem_cons_self _ _
    · rw [Bool.not_eq_true] at e
      rw [e] at h
      exact List.mem_cons_of_mem _ (ih h)

/-! ## Claims -/

/-- C2 (code bug): the classifier accepts a feature label iff it is
present, non-empty, and its lowercase form contains the marker word
`inner`. The labels "Inner wall" and "WALL-INNER" are accepted and
"Outer wall" is rejected, as the claim says — but the claim's third
example label "Internal perimeter 2" is rejected, because `inner` is not
a substring of `internal perimeter 2`; the code's own comment says the
lookup is meant to catch PrusaSlicer's "Internal perimeter". A toolpath
whose inner walls are labelled that way gets an empty transform map. -/
theorem c2_inner_classification :
    isInner (some "Inner wall".data) = true ∧
    isInner (some "WALL-INNER".data) = true ∧
    isInner (some "Outer wall".data) = false ∧
    isInner (some "Internal perimeter 2".data) = false ∧
    (preprocess 1
      [";LAYER_CHANGE", ";TYPE:Internal perimeter 2", "G1 X1 E1"]).transform_map = [] := by
  decide

/-- C5: a rewritten move always carries Z, and exactly the instruction's
`brick_z`; X, Y and F fields appear in the output iff they appear in the
input, with the same value; the E field appears iff the input had one,
scaled by the extrusion multiplier. No field other than Z is fabricated. -/
theorem c5_rewrite_fields (mult : Rat) (ti : TransformInfo) (g : GCmd) :
    (GPart.Z ti.brick_z ∈ executeTransformedMove mult ti g) ∧
    (∀ v, GPart.Z v ∈ executeTransformedMove mult ti g → v = ti.brick_z) ∧
    (∀ v, GPart.X v ∈ executeTransformedMove mult ti g ↔ g.x = some v) ∧
    (∀ v, GPart.Y v ∈ executeTransformedMove mult ti g ↔ g.y = some v) ∧
    (∀ v, GPart.F v ∈ executeTransformedMove mult ti g ↔ g.f = some v) ∧
    (∀ v, GPart.E v ∈ executeTransformedMove mult ti g ↔
      ∃ e0, g.e = some e0 ∧ v = e0 * mult) := by
  obtain ⟨x, y, z, e, f⟩ := g
  cases x <;> cases y <;> cases e <;> cases f <;>
    simp [executeTransformedMove, ratMul_eq, eq_comm]

/-- C8: when reading the toolpath source fails (at open or mid-scan), the
preprocess pass leaves the transform map empty and does not touch the
enabled flag; the failure is absorbed (the `except` arm), not propagated. -/
theorem c8_scan_failure (T : Nat) (eng : Engine) (delivered : List String) :
    (preprocessFile T eng delivered true).transform_map = [] ∧
    (preprocessFile T eng delivered true).enabled = eng.enabled :=
  ⟨rfl, rfl⟩

/-- C10: the interceptor's layer tracking is monotone over any command
sequence; one interception raises `current_layer` to the matched entry's
layer exactly when that layer strictly exceeds the current value; and the
tracking (and the ordinal counter) advance identically whatever the
enabled flag is. -/
theorem c10_layer_tracking (mult : Rat) (eng : Engine) (gs : List GCmd)
    (g : GCmd) (b : Bool) :
    eng.current_layer ≤ (runStream mult eng gs).current_layer ∧
    ((cmdG1Wrapper mult eng g).1).current_layer =
      (match eng.transform_map.lookup (eng.g1_command_count + 1) with
       | some ti =>
         if eng.current_layer < ti.layer then ti.layer else eng.current_layer
       | none => eng.current_layer) ∧
    (runStream mult { eng with enabled := b } gs).current_layer =
      (runStream mult eng gs).current_layer ∧
    (runStream mult { eng with enabled := b } gs).g1_command_count =
      (runStream mult eng gs).g1_command_count := by
  refine ⟨runStream_layer_mono mult gs eng, cmdG1Wrapper_current_layer mult eng g, ?_, ?_⟩
  · exact (runStream_obs mult gs { eng with enabled := b } eng rfl rfl rfl).1
  · exact (runStream_obs mult gs { eng with enabled := b } eng rfl rfl rfl).2

/-- C3: against a transform map produced by the Builder (same threshold),
the interceptor passes the original command through iff the runtime
ordinal is unmapped, or the engine is disabled, or the matched entry's
recorded layer is below the threshold — the last disjunct is vacuous
because built entries always record layers ≥ the threshold. When none of
these holds, the emitted command is the rewritten one. -/
theorem c3_passthrough (T : Nat) (mult : Rat) (lines : List String) (eng : Engine)
    (g : GCmd) (hmap : eng.transform_map = (preprocess T lines).transform_map) :
    ((cmdG1Wrapper mult eng g).2 = Emit.original g ↔
      (eng.transform_map.lookup (eng.g1_command_count + 1) = none ∨
       eng.enabled = false ∨
       (∃ ti, eng.transform_map.lookup (eng.g1_command_count + 1) = some ti ∧
         ti.layer < T))) ∧
    (∀ ti, eng.transform_map.lookup (eng.g1_command_count + 1) = some ti →
      eng.enabled = true →
      (cmdG1Wrapper mult eng g).2 = Emit.rewritten (executeTransformedMove mult ti g)) := by
  constructor
  · rw [cmdG1Wrapper_emit]
    cases h : eng.transform_map.lookup (eng.g1_command_count + 1) with
    | none => simp
    | some ti =>
      have hT : T ≤ ti.layer := by
        refine preprocess_mapLayersAtLeast T lines (eng.g1_command_count + 1, ti) ?_
        rw [hmap] at h
        exact lookup_mem h
      dsimp only
      by_cases he : eng.enabled = true
      · simp only [he, if_true]
        constructor
        · intro hc; exact absurd hc (by simp)
        · rintro (hnone | hfalse | ⟨ti', hsome, hlt⟩)
          · exact absurd hnone (by simp)
          · simp at hfalse
          · simp only [Option.some.injEq] at hsome
            subst hsome
            omega
      · rw [Bool.not_eq_true] at he
        simp only [he, Bool.false_eq_true, if_false]
        simp
  · intro ti hsome hen
    rw [cmdG1Wrapper_emit, hsome]
    dsimp only
    rw [hen]
    rfl

/-- Witness for C3 at a concrete builder map and command. -/
theorem c3_witness :
    mappedEngine.transform_map = (preprocess 1 demoToolpath).transform_map ∧
    ((cmdG1Wrapper (mkRat 21 20) mappedEngine
        { x := some (mkRat 1 1), y := none, z := none,
          e := some (mkRat 1 1), f := none }).2 =
      Emit.original
        { x := some (mkRat 1 1), y := none, z := none,
          e := some (mkRat 1 1), f := none } ↔
      (mappedEngine.transform_map.lookup (mappedEngine.g1_command_count + 1) = none ∨
       mappedEngine.enabled = false ∨
       (∃ ti, mappedEngine.transform_map.lookup (mappedEngine.g1_command_count + 1) =
          some ti ∧ ti.layer < 1))) :=
  ⟨rfl, (c3_passthrough 1 (mkRat 21 20) demoToolpath mappedEngine _ rfl).1⟩

/-- C4 counterexample: at start-layer threshold 0 the claimed pattern
("layer T has offsetState true, layer T+1 false, …") fails. With T = 0
the scan starts at layer 0 (= T) with the flag false, and the first layer
boundary (layer 1 = T+1) flips it to true — the opposite of the claim's
prediction for both layers. -/
theorem c4_counterexample :
    (preprocess 0 ([] : List String)).layer = 0 ∧
    (preprocess 0 ([] : List String)).brick_offset_state = false ∧
    (preprocess 0 [";LAYER_CHANGE"]).layer = 1 ∧
    (preprocess 0 [";LAYER_CHANGE"]).brick_offset_state = true := by
  decide

/-- C4 (amended: for thresholds T ≥ 1): the offset flag is always the
closed-form function of the layer index — false strictly below T, true at
T, then alternating (`offsetOfLayer`) — and a layer boundary increments
the layer and flips the flag exactly when the resulting layer reaches T. -/
theorem c4_offset_alternation (T : Nat) (lines : List String) (st : ScanState)
    (line : String) (hT : 1 ≤ T) (hline : isLayerLine (pyStrip line.data) = true) :
    (preprocess T lines).brick_offset_state =
      offsetOfLayer T (preprocess T lines).layer ∧
    offsetOfLayer T (T - 1) = false ∧
    offsetOfLayer T T = true ∧
    offsetOfLayer T (T + 1) = false ∧
    offsetOfLayer T (T + 2) = true ∧
    (processLine T st line).layer = st.layer + 1 ∧
    (processLine T st line).brick_offset_state =
      (if T ≤ st.layer + 1 then !st.brick_offset_state else st.brick_offset_state) := by
  refine ⟨preprocess_offset T hT lines, ?_, ?_, ?_, ?_, ?_, ?_⟩
  · unfold offsetOfLayer
    rw [if_pos (by omega : T - 1 < T)]
  · unfold offsetOfLayer
    rw [if_neg (by omega : ¬ T < T)]
    have e : T - T = 0 := by omega
    rw [e]
    decide
  · unfold offsetOfLayer
    rw [if_neg (by omega : ¬ T + 1 < T)]
    have e : T + 1 - T = 1 := by omega
    rw [e]
    decide
  · unfold offsetOfLayer
    rw [if_neg (by omega : ¬ T + 2 < T)]
    have e : T + 2 - T = 2 := by omega
    rw [e]
    decide
  · rw [processLine_of_layer T st line hline]
  · rw [processLine_of_layer T st line hline]

/-- Witness for C4 at threshold 1 on the demo toolpath. -/
theorem c4_witness :
    (1 ≤ 1) ∧ isLayerLine (pyStrip (";LAYER_CHANGE" : String).data) = true ∧
    ((preprocess 1 demoToolpath).brick_offset_state =
      offsetOfLayer 1 (preprocess 1 demoToolpath).layer ∧
     offsetOfLayer 1 (1 - 1) = false ∧
     offsetOfLayer 1 1 = true ∧
     offsetOfLayer 1 (1 + 1) = false ∧
     offsetOfLayer 1 (1 + 2) = true ∧
     (processLine 1 initScan ";LAYER_CHANGE").layer = initScan.layer + 1 ∧
     (processLine 1 initScan ";LAYER_CHANGE").brick_offset_state =
       (if 1 ≤ initScan.layer + 1 then !initScan.brick_offset_state
        else initScan.brick_offset_state)) :=
  ⟨by decide, by decide,
   c4_offset_alternation 1 demoToolpath initScan ";LAYER_CHANGE" (by decide) (by decide)⟩

theorem isPrefixOf_second {a a' b c : Char} {p q ls : Str}
    (hp : ((a :: b :: p).isPrefixOf ls) = true)
    (hq : ((a' :: c :: q).isPrefixOf ls) = true) : b = c := by
  cases ls with
  | nil => simp [List.isPrefixOf] at hp
  | cons y ys =>
    cases ys with
    | nil => simp [List.isPrefixOf] at hp
    | cons y2 ys2 =>
      simp only [List.isPrefixOf, Bool.and_eq_true, beq_iff_eq] at hp hq
      exact hp.2.1.trans hq.2.1.symm

/-- A height-annotation line can never also satisfy the Z-annotation test:
the prefixes disagree on the second character. -/
theorem isZLine_false_of_isHeightLine (ls : Str) (h : isHeightLine ls = true) :
    isZLine ls = false := by
  rw [Bool.eq_false_iff]
  intro hz
  rw [isZLine] at hz
  rw [isHeightLine, Bool.or_eq_true] at h
  have ez : (";Z:" : String).data = ';' :: 'Z' :: [':'] := rfl
  rw [ez] at hz
  rcases h with h | h
  · have eh : (";HEIGHT:" : String).data =
        ';' :: 'H' :: ['E', 'I', 'G', 'H', 'T', ':'] := rfl
    rw [eh] at h
    exact absurd (isPrefixOf_second hz h) (by decide)
  · have eh : (";layer_height" : String).data =
        ';' :: 'l' :: ['a', 'y', 'e', 'r', '_', 'h', 'e', 'i', 'g', 'h', 't'] := rfl
    rw [eh] at h
    exact absurd (isPrefixOf_second hz h) (by decide)

/-- C7 counterexample: the line `;HEIGHT:9.5 ;LAYER_CHANGE` starts with
`;HEIGHT:` and its float token parses as 9.5, but because the line also
contains the layer marker the scanner's earlier branch consumes it and
the tracked layer height stays at the 0.2 default — the claim as stated
("for every input line that starts with `;HEIGHT:` … sets layerHeight")
fails on this input. -/
theorem c7_counterexample :
    isHeightLine (pyStrip (";HEIGHT:9.5 ;LAYER_CHANGE" : String).data) = true ∧
    heightPayload? (pyStrip (";HEIGHT:9.5 ;LAYER_CHANGE" : String).data) =
      some (mkRat 19 2) ∧
    (preprocess 3 [";HEIGHT:9.5 ;LAYER_CHANGE"]).layer_height = mkRat 1 5 ∧
    ¬ ((mkRat 1 5 : Rat) = mkRat 19 2) := by
  decide

/-- C7 (amended: restricted to lines not containing the layer marker):
a line whose stripped form starts with `;HEIGHT:` or `;layer_height` and
is not classified as a layer boundary sets the tracked layer height to
its parsed float token, retaining the prior value when parsing fails, and
changes nothing else but the line counter. -/
theorem c7_height_update (T : Nat) (st : ScanState) (line : String)
    (h1 : isHeightLine (pyStrip line.data) = true)
    (h2 : isLayerLine (pyStrip line.data) = false) :
    processLine T st line =
      { st with
        line_count := st.line_count + 1,
        layer_height :=
          (heightPayload? (pyStrip line.data)).getD st.layer_height } :=
  processLine_of_height T st line h2 (isZLine_false_of_isHeightLine _ h1) h1

/-- Witness for C7 on a plain height annotation. -/
theorem c7_witness :
    isHeightLine (pyStrip (";HEIGHT:0.3" : String).data) = true ∧
    isLayerLine (pyStrip (";HEIGHT:0.3" : String).data) = false ∧
    processLine 3 initScan ";HEIGHT:0.3" =
      { initScan with
        line_count := initScan.line_count + 1,
        layer_height :=
          (heightPayload? (pyStrip ((";HEIGHT:0.3" : String)).data)).getD
            initScan.layer_height } :=
  ⟨by decide, by decide,
   c7_height_update 3 initScan ";HEIGHT:0.3" (by decide) (by decide)⟩

/-- C9 counterexample: the line `;Z:7.5:x;LAYER_CHANGE` starts with `;Z:`
and its payload (the text between the first and second colon) parses as
7.5, but the line also contains the layer marker, so the scanner treats
it as a layer boundary and `current_z` stays at its prior value — the
claim's "well-formed payload sets currentZ" half fails on this input. -/
theorem c9_counterexample :
    isZLine (pyStrip (";Z:7.5:x;LAYER_CHANGE" : String).data) = true ∧
    zPayload? (pyStrip (";Z:7.5:x;LAYER_CHANGE" : String).data) =
      some (mkRat 15 2) ∧
    (preprocess 3 [";Z:7.5:x;LAYER_CHANGE"]).current_z = 0 ∧
    ¬ ((0 : Rat) = mkRat 15 2) := by
  decide

/-- C9 (amended: restricted to lines not containing the layer marker):
a line whose stripped form starts with `;Z:` and is not classified as a
layer boundary sets `current_z` to its parsed payload, retaining the
prior value when parsing fails (no exception), and changes nothing else
but the line counter. -/
theorem c9_z_update (T : Nat) (st : ScanState) (line : String)
    (h1 : isZLine (pyStrip line.data) = true)
    (h2 : isLayerLine (pyStrip line.data) = false) :
    processLine T st line =
      { st with
        line_count := st.line_count + 1,
        current_z := (zPayload? (pyStrip line.data)).getD st.current_z } :=
  processLine_of_z T st line h2 h1

/-- Witness for C9 on a well-formed and on a malformed Z annotation. -/
theorem c9_witness :
    isZLine (pyStrip (";Z:1.25" : String).data) = true ∧
    isLayerLine (pyStrip (";Z:1.25" : String).data) = false ∧
    processLine 3 initScan ";Z:1.25" =
      { initScan with
        line_count := initScan.line_count + 1,
        current_z :=
          (zPayload? (pyStrip ((";Z:1.25" : String)).data)).getD
            initScan.current_z } :=
  ⟨by decide, by decide,
   c9_z_update 3 initScan ";Z:1.25" (by decide) (by decide)⟩

/-- C1: over a full scan the Builder assigns the ordinals 1, 2, 3, … to
the move lines in file order (the per-move values of the scan's
`g1_count`), and over a live run from a freshly reset engine the
Interceptor assigns the ordinals 1, 2, 3, … to the intercepted commands
(the per-command values of `g1_command_count`); when the stream carries
one live command per move line — the same toolpath executed
start-to-finish without reload — the two assignments agree at every
position K. -/
theorem c1_ordinal_agreement (T : Nat) (mult : Rat) (lines : List String)
    (eng : Engine) (gs : List GCmd)
    (h0 : eng.g1_command_count = 0) (hlen : gs.length = countMoves lines) :
    scanAssigned T lines = runAssignedAux mult eng gs ∧
    (preprocess T lines).g1_count = countMoves lines := by
  refine ⟨?_, preprocess_g1_count T lines⟩
  rw [scanAssigned, scanAssignedAux_eq, runAssignedAux_eq, h0, hlen]
  rfl

/-- Witness for C1 on the demo toolpath and a matching live stream. -/
theorem c1_witness :
    demoEngine.g1_command_count = 0 ∧
    demoCmds.length = countMoves demoToolpath ∧
    (scanAssigned 1 demoToolpath = runAssignedAux (mkRat 21 20) demoEngine demoCmds ∧
     (preprocess 1 demoToolpath).g1_count = countMoves demoToolpath) :=
  ⟨rfl, by decide,
   c1_ordinal_agreement 1 (mkRat 21 20) demoToolpath demoEngine demoCmds rfl (by decide)⟩

/-- C6: decompose the toolpath around any move line. The final transform
map has an entry at that move's ordinal iff the scan state before the
move classifies the current feature label as inner-wall (in particular a
move before any `;TYPE:` line, whose label is still undefined, is never
mapped) and the current layer has reached the threshold; the entry
records exactly the scan state at that moment, with
`brick_z = current_z + layer_height / 2` (the move's own embedded Z, if
any, having updated `current_z` first). Moreover every key of the final
map is an assigned ordinal: between 1 and the final move count. -/
theorem c6_map_entries (T : Nat) (pre rest : List String) (line : String) (k : Nat)
    (hm : isMoveLine line = true) :
    ((preprocess T (pre ++ line :: rest)).transform_map.lookup
        ((preprocess T pre).g1_count + 1) =
      (if isInner (preprocess T pre).current_type &&
          decide (T ≤ (preprocess T pre).layer) then
        some
          { layer := (preprocess T pre).layer,
            type := (preprocess T pre).current_type.getD [],
            offset_state := (preprocess T pre).brick_offset_state,
            current_z :=
              (extractZ? (pyStrip line.data)).getD (preprocess T pre).current_z,
            layer_height := (preprocess T pre).layer_height,
            brick_z :=
              (extractZ? (pyStrip line.data)).getD (preprocess T pre).current_z +
                (preprocess T pre).layer_height / 2,
            file_line := (preprocess T pre).line_count + 1 }
      else none)) ∧
    (((preprocess T (pre ++ line :: rest)).transform_map.lookup k).isSome →
      1 ≤ k ∧ k ≤ (preprocess T (pre ++ line :: rest)).g1_count) := by
  constructor
  · have hfold : preprocess T (pre ++ line :: rest) =
        rest.foldl (processLine T) (processLine T (preprocess T pre) line) := by
      rw [preprocess, List.foldl_append, List.foldl_cons]
      rfl
    have hinv : mapKeysBounded (preprocess T pre) := preprocess_mapKeysBounded T pre
    have hinv' : mapKeysBounded (processLine T (preprocess T pre) line) :=
      processLine_mapKeysBounded T (preprocess T pre) line hinv
    have hg : (processLine T (preprocess T pre) line).g1_count =
        (preprocess T pre).g1_count + 1 := by
      rw [processLine_g1_count, if_pos hm]
    rw [hfold,
      foldl_lookup_stable T rest (processLine T (preprocess T pre) line)
        ((preprocess T pre).g1_count + 1) hinv' (by rw [hg])]
    have hnone : (preprocess T pre).transform_map.lookup
        ((preprocess T pre).g1_count + 1) = none :=
      lookup_none_of_gt _ (preprocess T pre).g1_count _
        (fun p hp => (hinv p hp).2) (by omega)
    by_cases hc :
        (isInner (preprocess T pre).current_type &&
          decide (T ≤ (preprocess T pre).layer)) = true
    · rw [processLine_of_move_mapped T (preprocess T pre) line hm hc]
      dsimp only
      rw [List.lookup_append, hnone, Option.none_or, List.lookup_cons_self, if_pos hc]
      unfold moveInfo
      rw [ratAdd_eq, ratHalf_eq]
    · rw [Bool.not_eq_true] at hc
      rw [processLine_of_move_unmapped T (preprocess T pre) line hm hc]
      dsimp only
      rw [hnone, if_neg (by rw [hc]; simp)]
  · intro hk
    cases hsome : (preprocess T (pre ++ line :: rest)).transform_map.lookup k with
    | none => rw [hsome] at hk; simp at hk
    | some b =>
      exact preprocess_mapKeysBounded T (pre ++ line :: rest) (k, b) (lookup_mem hsome)

/-- Witness for C6: the inner-wall move after a layer change and an
inner-wall annotation, at threshold 1, is mapped at ordinal 1. -/
theorem c6_witness :
    isMoveLine "G1 X2 E1" = true ∧
    (((preprocess 1 (innerWallBlock ++ "G1 X2 E1" :: ["G1 X3"])).transform_map.lookup
        ((preprocess 1 innerWallBlock).g1_count + 1) =
      (if isInner (preprocess 1 innerWallBlock).current_type &&
          decide (1 ≤ (preprocess 1 innerWallBlock).layer) then
        some
          { layer := (preprocess 1 innerWallBlock).layer,
            type := (preprocess 1 innerWallBlock).current_type.getD [],
            offset_state := (preprocess 1 innerWallBlock).brick_offset_state,
            current_z :=
              (extractZ? (pyStrip ("G1 X2 E1" : String).data)).getD
                (preprocess 1 innerWallBlock).current_z,
            layer_height := (preprocess 1 innerWallBlock).layer_height,
            brick_z :=
              (extractZ? (pyStrip ("G1 X2 E1" : String).data)).getD
                  (preprocess 1 innerWallBlock).current_z +
                (preprocess 1 innerWallBlock).layer_height / 2,
            file_line := (preprocess 1 innerWallBlock).line_count + 1 }
      else none)) ∧
    (((preprocess 1 (innerWallBlock ++ "G1 X2 E1" :: ["G1 X3"])).transform_map.lookup
        1).isSome →
      1 ≤ 1 ∧ 1 ≤ (preprocess 1 (innerWallBlock ++ "G1 X2 E1" :: ["G1 X3"])).g1_count)) :=
  ⟨by decide, c6_map_entries 1 innerWallBlock ["G1 X3"] "G1 X2 E1" 1 (by decide)⟩

end BrickLayers
